import Mathlib

/-!
Verification of the profile-extraction and conversation-staging engine of
`src/src/components/ChatInterface.tsx` (StoryMode AI).

The definitions below are a shallow embedding of the source file's helper
functions and of the relevant parts of `handleSubmit`:

- `analyzeUserInput` (lines 77-121): the keyword classifier,
- `calculateCompleteness` (lines 124-131): the completeness score,
- `getConversationStage` (lines 134-138): the stage selector,
- `mergeProfile` / `updateProfileWithMessage` (lines 169-189): the profile merge,
- `attachmentBlock` / `buildAttachmentContext` (lines 196-208): the attachment loop,
- `profileContext` / `systemPrompt` (lines 210-286): the prompt assembler,
- `publishedContents` (lines 288-314): the streamed-response accumulator.
-/

/-- JavaScript `text.toLowerCase()`, character by character. The keywords and
all text considered here are ASCII, where JavaScript and `Char.toLower`
lowercasing agree. -/
def toLowerCase (s : String) : String := ⟨s.data.map Char.toLower⟩

/-- `needle` is an initial segment of `hay` (character lists). -/
def isPrefixOfChars : List Char → List Char → Bool
  | [], _ => true
  | _ :: _, [] => false
  | a :: as, b :: bs => a == b && isPrefixOfChars as bs

/-- `needle` occurs contiguously somewhere in `hay` (character lists). -/
def containsSub : List Char → List Char → Bool
  | [], needle => isPrefixOfChars needle []
  | a :: t, needle => isPrefixOfChars needle (a :: t) || containsSub t needle

/-- JavaScript `hay.includes(needle)`: substring containment. -/
def strIncludes (hay needle : String) : Bool := containsSub hay.data needle.data

/-- `needle` occurs contiguously in `hay`, as a proposition. -/
def ContainsStr (hay needle : String) : Prop :=
  ∃ pre post, hay = pre ++ needle ++ post

/-- The `UserProfile` interface (ChatInterface.tsx lines 24-33): an optional
single-valued major, six optional fragment lists, and the stored
completeness percentage. -/
structure UserProfile where
  major : Option String := none
  colleges : Option (List String) := none
  essayPrompts : Option (List String) := none
  extracurriculars : Option (List String) := none
  classes : Option (List String) := none
  hobbies : Option (List String) := none
  awards : Option (List String) := none
  completeness : Nat := 0
deriving DecidableEq, Repr

/-- The initial profile state `useState<UserProfile>({ completeness: 0 })`
(line 63): every field absent, completeness 0. -/
def initialProfile : UserProfile := { completeness := 0 }

/-- The `Partial<UserProfile>` value returned by `analyzeUserInput`: each
profile field either absent (key not set) or present with its fragment(s).
The classifier never sets `completeness`. -/
structure ClassifierOutput where
  major : Option String := none
  colleges : Option (List String) := none
  essayPrompts : Option (List String) := none
  extracurriculars : Option (List String) := none
  classes : Option (List String) := none
  hobbies : Option (List String) := none
  awards : Option (List String) := none
deriving DecidableEq, Repr

/-- The classifier output with no field present. -/
def emptyClassifierOutput : ClassifierOutput := {}

/-- Keyword set for `major` (line 82). -/
def majorKeywords : List String := ["major", "study", "field"]

/-- Keyword set for `colleges` (line 87). -/
def collegeKeywords : List String := ["college", "university", "school"]

/-- Keyword set for `essayPrompts` (line 92). -/
def essayKeywords : List String := ["essay", "prompt", "question"]

/-- Keyword set for `extracurriculars` (lines 97-98). -/
def extracurricularKeywords : List String :=
  ["extracurricular", "activity", "club", "volunteer", "leadership"]

/-- Keyword set for `classes` (lines 103-104); note the trailing spaces of
"ap " and "ib ". -/
def classKeywords : List String := ["class", "course", "ap ", "honors", "ib "]

/-- Keyword set for `hobbies` (lines 109-110). -/
def hobbyKeywords : List String := ["hobby", "interest", "passion", "enjoy", "love"]

/-- Keyword set for `awards` (lines 115-116). -/
def awardKeywords : List String := ["award", "recognition", "achievement", "honor", "prize"]

/-- Every keyword of every field's trigger set. -/
def allKeywords : List String :=
  majorKeywords ++ collegeKeywords ++ essayKeywords ++ extracurricularKeywords ++
    classKeywords ++ hobbyKeywords ++ awardKeywords

/-- One trigger condition of `analyzeUserInput`: a disjunction of
`lowerText.includes(kw)` over the field's keyword set. -/
def hasAnyKeyword (lowerText : String) (kws : List String) : Bool :=
  kws.any fun kw => strIncludes lowerText kw

/-- `analyzeUserInput` (lines 77-121): lowercase the text once, then for each
field, if any of its keywords occurs in the lowercased copy, set that field;
the fragment is always the entire original text (`text` for the single-valued
`major`, the one-element array `[text]` for the six list fields). -/
def analyzeUserInput (text : String) : ClassifierOutput :=
  let lowerText := toLowerCase text
  { major := if hasAnyKeyword lowerText majorKeywords then some text else none
    colleges := if hasAnyKeyword lowerText collegeKeywords then some [text] else none
    essayPrompts := if hasAnyKeyword lowerText essayKeywords then some [text] else none
    extracurriculars :=
      if hasAnyKeyword lowerText extracurricularKeywords then some [text] else none
    classes := if hasAnyKeyword lowerText classKeywords then some [text] else none
    hobbies := if hasAnyKeyword lowerText hobbyKeywords then some [text] else none
    awards := if hasAnyKeyword lowerText awardKeywords then some [text] else none }

/-- The populated test of `calculateCompleteness` (line 128) for the
single-valued `major`: `value && value.length > 0` — absent (`undefined`)
and the empty string (falsy) are not populated. -/
def strPopulated : Option String → Bool
  | none => false
  | some s => decide (0 < s.length)

/-- The populated test of `calculateCompleteness` (line 128) for a list field:
absent is not populated, a present array is populated iff it is non-empty. -/
def listPopulated : Option (List String) → Bool
  | none => false
  | some l => decide (0 < l.length)

/-- The seven per-field populated flags, in the order of the `fields` array of
`calculateCompleteness` (line 125). -/
def populatedFlags (p : UserProfile) : List Bool :=
  [strPopulated p.major, listPopulated p.colleges, listPopulated p.essayPrompts,
   listPopulated p.extracurriculars, listPopulated p.classes,
   listPopulated p.hobbies, listPopulated p.awards]

/-- `fields.filter(...).length` (lines 126-129): how many of the seven fields
are populated. -/
def populatedCount (p : UserProfile) : Nat :=
  ((populatedFlags p).filter fun b => b).length

/-- Round-half-up of the nonnegative rational `num / den`: what JavaScript
`Math.round` computes on a nonnegative argument. -/
def roundHalfUp (num den : Nat) : Nat := (2 * num + den) / (2 * den)

/-- `calculateCompleteness` (lines 124-131):
`Math.round((completedFields.length / fields.length) * 100)` with seven fields.
For each count 0..7 the double-precision value the source rounds has the same
round-half-up result as the exact rational `100 * count / 7`, so the score is
embedded as exact round-half-up. -/
def calculateCompleteness (p : UserProfile) : Nat :=
  roundHalfUp (populatedCount p * 100) 7

/-- The conversation stage union type (line 134). -/
inductive Stage where
  | collection
  | generation
  | refinement
deriving DecidableEq, Repr

/-- `getConversationStage` (lines 134-138): below 60 collection, at or above 60
generation, otherwise (unreachably) refinement. -/
def getConversationStage (p : UserProfile) : Stage :=
  if p.completeness < 60 then Stage.collection
  else if p.completeness ≥ 60 then Stage.generation
  else Stage.refinement

/-- The `major` case of the merge loop of `handleSubmit` (lines 174-186):
the key is present iff the classifier set it, and the guard
`if (extractedInfo[typedKey])` skips a falsy value — for a string that is the
empty string — so a present non-empty fragment overwrites the current value
(last-write-wins) and anything else leaves it unchanged. -/
def mergeMajor (cur : Option String) : Option String → Option String
  | some s => if s = "" then cur else some s
  | none => cur

/-- The array case of the merge loop of `handleSubmit` (lines 177-181): a
present array (arrays are truthy in JavaScript, even empty ones) is appended
onto the current value, `undefined` being spread as the empty array; an absent
key leaves the field unchanged. -/
def mergeList (cur add : Option (List String)) : Option (List String) :=
  match add with
  | some l => some (cur.getD [] ++ l)
  | none => cur

/-- The whole merge loop of `handleSubmit` (lines 174-186): each key the
classifier set updates its own field; fields the classifier did not set, and
the stored completeness, are untouched by the loop. -/
def mergeProfile (p : UserProfile) (o : ClassifierOutput) : UserProfile :=
  { major := mergeMajor p.major o.major
    colleges := mergeList p.colleges o.colleges
    essayPrompts := mergeList p.essayPrompts o.essayPrompts
    extracurriculars := mergeList p.extracurriculars o.extracurriculars
    classes := mergeList p.classes o.classes
    hobbies := mergeList p.hobbies o.hobbies
    awards := mergeList p.awards o.awards
    completeness := p.completeness }

/-- Merge a classifier output and then recompute the stored completeness, as
`handleSubmit` does right after its merge loop (line 188). -/
def mergeAndRescore (p : UserProfile) (o : ClassifierOutput) : UserProfile :=
  let m := mergeProfile p o
  { m with completeness := calculateCompleteness m }

/-- The profile update one user message causes (lines 169-189): classify the
typed input, merge, rescore. -/
def updateProfileWithMessage (p : UserProfile) (text : String) : UserProfile :=
  mergeAndRescore p (analyzeUserInput text)

/-- The profiles a session can reach: the initial empty profile, then one
`updateProfileWithMessage` per submitted user message. -/
inductive ReachableProfile : UserProfile → Prop
  | init : ReachableProfile initialProfile
  | step (p : UserProfile) (text : String) :
      ReachableProfile p → ReachableProfile (updateProfileWithMessage p text)

/-- One attached file together with the outcome of the
`blink.data.extractFromBlob(file)` call for it (line 201): `some text` when
extraction succeeds, `none` when it throws. -/
structure Attachment where
  name : String
  extractResult : Option String
deriving DecidableEq, Repr

/-- The block one attachment appends to `attachmentContext` (lines 200-206):
the labeled extracted text on success, the labeled could-not-process
placeholder on failure. -/
def attachmentBlock (a : Attachment) : String :=
  match a.extractResult with
  | some extractedText => "\n\nContent from " ++ a.name ++ ":\n" ++ extractedText
  | none => "\n\nNote: Could not process " ++ a.name

/-- The `attachmentContext` accumulation loop (lines 197-208): starting from
the empty string, append each file's block in submission order. -/
def buildAttachmentContext (files : List Attachment) : String :=
  files.foldl (fun ctx a => ctx ++ attachmentBlock a) ""

/-- Stage names as they are interpolated into the prompt template (line 223). -/
def stageString : Stage → String
  | Stage.collection => "collection"
  | Stage.generation => "generation"
  | Stage.refinement => "refinement"

/-- `updatedProfile.major || 'Not specified'` (line 215): absent and the empty
string (falsy) both render as the literal fallback. -/
def renderMajor : Option String → String
  | some s => if s = "" then "Not specified" else s
  | none => "Not specified"

/-- `list?.join(sep) || 'Not specified'` (lines 216-221): an absent field, and
a join that yields the empty string (empty array, or only empty fragments with
an empty separator), both render as the literal fallback. -/
def renderJoin (sep : String) : Option (List String) → String
  | some l =>
    let j := String.intercalate sep l
    if j = "" then "Not specified" else j
  | none => "Not specified"

/-- The `profileContext` template (lines 213-224), character for character;
the concatenation is grouped so that each rendered profile line is a subterm. -/
def profileContext (p : UserProfile) (stage : Stage) : String :=
  "\nCurrent User Profile:\n" ++
  ("- Major: " ++ renderMajor p.major) ++ "\n" ++
  ("- Target Colleges: " ++ renderJoin ", " p.colleges) ++ "\n" ++
  ("- Essay Prompts: " ++ renderJoin "; " p.essayPrompts) ++ "\n" ++
  ("- Extracurriculars: " ++ renderJoin ", " p.extracurriculars) ++ "\n" ++
  ("- Classes: " ++ renderJoin ", " p.classes) ++ "\n" ++
  ("- Hobbies: " ++ renderJoin ", " p.hobbies) ++ "\n" ++
  ("- Awards: " ++ renderJoin ", " p.awards) ++ "\n" ++
  ("- Profile Completeness: " ++ toString p.completeness ++ "%") ++ "\n" ++
  ("- Conversation Stage: " ++ stageString stage) ++ "\n"

/-- The collection-stage system prompt (lines 229-241), character for
character, parameterized by the already-rendered profile context. -/
def collectionPrompt (pc input attachmentContext : String) : String :=
  "You are StoryMode AI, a college application narrative assistant. You're currently in the INFORMATION COLLECTION stage.\n\n" ++
  pc ++
  "\n\nYour current task is to:\n1. Acknowledge what the user has shared\n2. Identify what key information is still missing\n3. Ask thoughtful follow-up questions to gather more details\n4. Be encouraging and show how their experiences connect\n\nFocus on collecting comprehensive information about their major, target colleges, essay prompts, extracurriculars, classes, hobbies, and awards. Ask specific, engaging questions that help them reflect on their experiences.\n\nUser's latest message: " ++
  input ++ attachmentContext

/-- The generation-stage system prompt (lines 244-278), character for
character; the concatenation is grouped so that each of the six named section
headers is a subterm. -/
def generationPrompt (pc completenessText input attachmentContext : String) : String :=
  "You are StoryMode AI, a college application narrative assistant. You're now in the NARRATIVE GENERATION stage.\n\n" ++
  pc ++
  "\n\nThe user has provided sufficient information (" ++ completenessText ++
  "% complete). Now generate a comprehensive narrative roadmap that includes:\n\n" ++
  "## 🎯 NARRATIVE THEMES" ++
  "\nIdentify 2-3 overarching themes that connect their experiences\n\n" ++
  "## 🔗 CONNECTION MATRIX" ++
  "  \nShow how their major, extracurriculars, classes, hobbies, and awards interconnect\n\n" ++
  "## 📚 COLLEGE-SPECIFIC STRATEGIES" ++
  "\nFor each target college, provide:\n- Why they're a perfect fit\n- How to position their unique story\n- Key points to emphasize\n\n" ++
  "## ✍️ ESSAY ROADMAP" ++
  "\nFor each essay prompt:\n- Suggested approach and angle\n- Specific experiences to highlight\n- How to weave in their themes\n\n" ++
  "## 💡 BRAINSTORMING IDEAS" ++
  "\n- Unique angles they haven't considered\n- Stories that showcase growth and impact\n- Ways to demonstrate intellectual curiosity\n\n" ++
  "## 🚀 ACTION PLAN" ++
  "\nConcrete next steps for their application strategy\n\nBe specific, insightful, and strategic. Help them see the compelling narrative that emerges from their experiences.\n\nUser's latest message: " ++
  input ++ attachmentContext

/-- The refinement-stage system prompt (lines 281-285), character for
character. -/
def refinementPrompt (pc input attachmentContext : String) : String :=
  "You are StoryMode AI in REFINEMENT mode. Help the user polish and refine their narrative strategy based on their feedback.\n\n" ++
  pc ++
  "\n\nUser's latest message: " ++
  input ++ attachmentContext

/-- The six named section headers of the generation-stage instructions
(lines 250-273). -/
def generationSectionHeaders : List String :=
  ["## 🎯 NARRATIVE THEMES", "## 🔗 CONNECTION MATRIX",
   "## 📚 COLLEGE-SPECIFIC STRATEGIES", "## ✍️ ESSAY ROADMAP",
   "## 💡 BRAINSTORMING IDEAS", "## 🚀 ACTION PLAN"]

/-- The `systemPrompt` assembly of `handleSubmit` (lines 210-286): render the
profile context for the stage selected from the updated profile, then branch
on that stage. -/
def systemPrompt (p : UserProfile) (input attachmentContext : String) : String :=
  let conversationStage := getConversationStage p
  let pc := profileContext p conversationStage
  match conversationStage with
  | Stage.collection => collectionPrompt pc input attachmentContext
  | Stage.generation => generationPrompt pc (toString p.completeness) input attachmentContext
  | Stage.refinement => refinementPrompt pc input attachmentContext

/-- What one conversation turn produces from the core's point of view. -/
structure TurnResult where
  profile : UserProfile
  stage : Stage
  prompt : String
deriving Repr

/-- One turn of `handleSubmit` (lines 155-326) as it affects the profile, the
stage and the assembled prompt: the profile update (lines 169-189) reads only
the typed input; the attachment extraction results (lines 196-208) flow only
into the prompt. -/
def processTurn (p : UserProfile) (input : String) (files : List Attachment) : TurnResult :=
  let updatedProfile := updateProfileWithMessage p input
  let attachmentContext := buildAttachmentContext files
  { profile := updatedProfile
    stage := getConversationStage updatedProfile
    prompt := systemPrompt updatedProfile input attachmentContext }

/-- The streamed-response accumulator (lines 288-314): the assistant message is
created with empty content; each chunk callback appends the chunk to the
running `assistantResponse` and publishes it as the message content. Starting
from accumulated content `acc`, this is the sequence of published contents,
one entry per chunk, in arrival order. -/
def publishedContents (acc : String) : List String → List String
  | [] => []
  | chunk :: rest => (acc ++ chunk) :: publishedContents (acc ++ chunk) rest

/-- The message "I'm majoring in computer science and applying to MIT" of the
spec's end-to-end scenario. -/
def c6msg : String := "I" ++ String.mk [Char.ofNat 39] ++
  "m majoring in computer science and applying to MIT"

/-! ## Helper lemmas: substring containment -/

theorem isPrefixOfChars_iff (n h : List Char) :
    isPrefixOfChars n h = true ↔ ∃ rest, h = n ++ rest := by
  induction n generalizing h with
  | nil => simp [isPrefixOfChars]
  | cons a as ih =>
    cases h with
    | nil => simp [isPrefixOfChars]
    | cons b bs =>
      simp only [isPrefixOfChars, Bool.and_eq_true, beq_iff_eq, ih, List.cons_append,
        List.cons.injEq]
      constructor
      · rintro ⟨rfl, rest, rfl⟩; exact ⟨rest, rfl, rfl⟩
      · rintro ⟨rest, rfl, rfl⟩; exact ⟨rfl, rest, rfl⟩

theorem containsSub_iff (h n : List Char) :
    containsSub h n = true ↔ ∃ pre post, h = pre ++ n ++ post := by
  induction h with
  | nil =>
    simp only [containsSub, isPrefixOfChars_iff]
    constructor
    · rintro ⟨rest, hr⟩
      rcases List.append_eq_nil.mp hr.symm with ⟨rfl, rfl⟩
      exact ⟨[], [], rfl⟩
    · rintro ⟨pre, post, hp⟩
      rcases List.append_eq_nil.mp ((List.append_eq_nil.mp hp.symm).1) with ⟨rfl, rfl⟩
      rcases List.append_eq_nil.mp hp.symm with ⟨-, rfl⟩
      exact ⟨[], rfl⟩
  | cons a t ih =>
    simp only [containsSub, Bool.or_eq_true, isPrefixOfChars_iff, ih]
    constructor
    · rintro (⟨rest, hr⟩ | ⟨pre, post, rfl⟩)
      · exact ⟨[], rest, by simpa using hr⟩
      · exact ⟨a :: pre, post, rfl⟩
    · rintro ⟨pre, post, hp⟩
      cases pre with
      | nil => exact Or.inl ⟨post, by simpa using hp⟩
      | cons x xs =>
        rcases List.cons.injEq .. ▸ hp with ⟨rfl, ht⟩
        exact Or.inr ⟨xs, post, by simpa using hp⟩

/-- Two strings are equal iff their character lists are. -/
theorem stringEq_of_data {s t : String} (h : s.data = t.data) : s = t := String.ext h

theorem strIncludes_iff (hay needle : String) :
    strIncludes hay needle = true ↔ ContainsStr hay needle := by
  rw [strIncludes, containsSub_iff, ContainsStr]
  constructor
  · rintro ⟨pre, post, hp⟩
    refine ⟨⟨pre⟩, ⟨post⟩, stringEq_of_data ?_⟩
    simpa [String.data_append] using hp
  · rintro ⟨pre, post, rfl⟩
    exact ⟨pre.data, post.data, by simp [String.data_append]⟩

theorem hasAnyKeyword_iff (lowerText : String) (kws : List String) :
    hasAnyKeyword lowerText kws = true ↔ ∃ kw ∈ kws, ContainsStr lowerText kw := by
  simp [hasAnyKeyword, List.any_eq_true, strIncludes_iff]

theorem hasAnyKeyword_eq_false (lowerText : String) (kws : List String)
    (h : ∀ kw ∈ kws, ¬ ContainsStr lowerText kw) :
    hasAnyKeyword lowerText kws = false := by
  rw [← Bool.not_eq_true, hasAnyKeyword_iff]
  rintro ⟨kw, hkw, hc⟩
  exact h kw hkw hc

/-! ## Helper lemmas: ContainsStr combinators -/

theorem containsStr_refl (s : String) : ContainsStr s s :=
  ⟨"", "", by rw [String.empty_append, String.append_empty]⟩

theorem ContainsStr.apL (a : String) {b x : String} (h : ContainsStr b x) :
    ContainsStr (a ++ b) x := by
  rcases h with ⟨pre, post, rfl⟩
  exact ⟨a ++ pre, post, by simp [String.append_assoc]⟩

theorem ContainsStr.apR {a x : String} (h : ContainsStr a x) (b : String) :
    ContainsStr (a ++ b) x := by
  rcases h with ⟨pre, post, rfl⟩
  exact ⟨pre, post ++ b, by rw [String.append_assoc, String.append_assoc]⟩

/-- The last two segments of a three-part concatenation occur in it. -/
theorem containsStr_last2 (a b c : String) : ContainsStr (a ++ b ++ c) (b ++ c) :=
  ⟨a, "", by rw [String.append_empty, String.append_assoc]⟩

/-! ## Helper lemmas: counting and rounding -/

theorem roundHalfUp_le_roundHalfUp (den : Nat) {a b : Nat} (h : a ≤ b) :
    roundHalfUp a den ≤ roundHalfUp b den :=
  Nat.div_le_div_right (by omega)

theorem populatedCount_le_seven (p : UserProfile) : populatedCount p ≤ 7 := by
  have := List.length_filter_le (fun b => b) (populatedFlags p)
  simpa [populatedCount, populatedFlags] using this

theorem roundHalfUp_values {k : Nat} (h : k ≤ 7) :
    roundHalfUp (k * 100) 7 ∈ [0, 14, 29, 43, 57, 71, 86, 100] := by
  interval_cases k <;> decide

/-- Recomputing the stored completeness does not change which fields are
populated. -/
theorem populatedFlags_set_completeness (p : UserProfile) (c : Nat) :
    populatedFlags { p with completeness := c } = populatedFlags p := rfl

theorem filterTrue_length_cons (a : Bool) (xs : List Bool) :
    ((a :: xs).filter fun b => b).length =
      (if a then 1 else 0) + ((xs.filter fun b => b).length) := by
  cases a <;> (simp [List.filter]; try omega)

theorem filterTrue_length_cons_le {a b : Bool} {xs ys : List Bool}
    (hab : a = true → b = true)
    (h : ((xs.filter fun x => x).length) ≤ ((ys.filter fun x => x).length)) :
    (((a :: xs).filter fun x => x).length) ≤ (((b :: ys).filter fun x => x).length) := by
  rw [filterTrue_length_cons, filterTrue_length_cons]
  cases a <;> cases b <;> (simp_all; try omega)

/-! ## Helper lemmas: the merge never unpopulates a field -/

theorem strPopulated_mergeMajor (cur add : Option String)
    (h : strPopulated cur = true) : strPopulated (mergeMajor cur add) = true := by
  cases add with
  | none => exact h
  | some s =>
    by_cases hs : s = ""
    · simpa [mergeMajor, hs] using h
    · have : 0 < s.length := by
        cases s with
        | mk data =>
          cases data with
          | nil => exact absurd rfl hs
          | cons c cs => simp [String.length]
      simp [mergeMajor, hs, strPopulated, this]

theorem listPopulated_mergeList (cur add : Option (List String))
    (h : listPopulated cur = true) : listPopulated (mergeList cur add) = true := by
  cases add with
  | none => exact h
  | some l =>
    cases cur with
    | none => simp [listPopulated] at h
    | some c =>
      simp only [listPopulated, decide_eq_true_eq] at h
      simp only [mergeList, Option.getD_some, listPopulated, List.length_append,
        decide_eq_true_eq]
      omega

theorem populatedCount_le_merge (p : UserProfile) (o : ClassifierOutput) :
    populatedCount p ≤ populatedCount (mergeProfile p o) := by
  simp only [populatedCount, populatedFlags, mergeProfile]
  refine filterTrue_length_cons_le (strPopulated_mergeMajor p.major o.major) ?_
  refine filterTrue_length_cons_le (listPopulated_mergeList p.colleges o.colleges) ?_
  refine filterTrue_length_cons_le (listPopulated_mergeList p.essayPrompts o.essayPrompts) ?_
  refine filterTrue_length_cons_le
    (listPopulated_mergeList p.extracurriculars o.extracurriculars) ?_
  refine filterTrue_length_cons_le (listPopulated_mergeList p.classes o.classes) ?_
  refine filterTrue_length_cons_le (listPopulated_mergeList p.hobbies o.hobbies) ?_
  refine filterTrue_length_cons_le (listPopulated_mergeList p.awards o.awards) ?_
  exact Nat.le_refl _

/-! ## Claim theorems -/

/-- C1. After every profile merge performed on a user message, the stored
completeness field equals round-half-up of 100 × populated-field-count / 7;
hence for every reachable profile, completeness is one of
0, 14, 29, 43, 57, 71, 86, 100, and the initial empty profile has
completeness 0. -/
theorem completeness_invariant (p : UserProfile) (h : ReachableProfile p) :
    p.completeness = roundHalfUp (100 * populatedCount p) 7
  ∧ p.completeness ∈ [0, 14, 29, 43, 57, 71, 86, 100]
  ∧ initialProfile.completeness = 0 := by
  induction h with
  | init =>
    refine ⟨by decide, by decide, rfl⟩
  | step q text hq ih =>
    have hc : (updateProfileWithMessage q text).completeness =
        roundHalfUp (populatedCount (updateProfileWithMessage q text) * 100) 7 := by
      rfl
    constructor
    · rw [hc, Nat.mul_comm]
    · refine ⟨?_, rfl⟩
      rw [hc]
      exact roundHalfUp_values (populatedCount_le_seven _)

/-- Witness for C1: the profile reached by one "i love art" message from the
initial profile satisfies the invariant. -/
theorem completeness_invariant_witness :
    (updateProfileWithMessage initialProfile "i love art").completeness
      ∈ [0, 14, 29, 43, 57, 71, 86, 100] :=
  (completeness_invariant _
    (ReachableProfile.step initialProfile "i love art" ReachableProfile.init)).2.1

/-- C2. For every profile, the stage selector returns collection iff the
completeness is below 60 and generation iff it is at least 60, and it never
returns refinement. -/
theorem stage_threshold (p : UserProfile) :
    (getConversationStage p = Stage.collection ↔ p.completeness < 60)
  ∧ (getConversationStage p = Stage.generation ↔ 60 ≤ p.completeness)
  ∧ getConversationStage p ≠ Stage.refinement := by
  unfold getConversationStage
  by_cases h : p.completeness < 60
  · simp [h]
  · have h60 : 60 ≤ p.completeness := Nat.le_of_not_lt h
    simp [h, h60]

/-- `mergeList` only appends: the merged list value (absent read as empty) is
the old value followed by the added fragments. -/
theorem mergeList_getD (cur add : Option (List String)) :
    (mergeList cur add).getD [] = cur.getD [] ++ add.getD [] := by
  cases add <;> simp [mergeList]

/-- `mergeMajor` either keeps the current major or overwrites it with a
present non-empty fragment. -/
theorem mergeMajor_cases (cur add : Option String) :
    mergeMajor cur add = cur
      ∨ ∃ s, add = some s ∧ s ≠ "" ∧ mergeMajor cur add = some s := by
  cases add with
  | none => exact Or.inl rfl
  | some s =>
    by_cases hs : s = ""
    · exact Or.inl (by simp [mergeMajor, hs])
    · exact Or.inr ⟨s, rfl, hs, by simp [mergeMajor, hs]⟩

/-- C4. Merging any classifier output into a profile whose stored completeness
is in sync never lowers completeness: the merge only appends to the six list
fields, only overwrites the major with a present non-empty fragment, and never
unpopulates a populated field. -/
theorem merge_monotone (p : UserProfile) (o : ClassifierOutput)
    (hinv : p.completeness = calculateCompleteness p) :
    p.completeness ≤ (mergeAndRescore p o).completeness
  ∧ (strPopulated p.major = true → strPopulated (mergeProfile p o).major = true)
  ∧ (listPopulated p.colleges = true → listPopulated (mergeProfile p o).colleges = true)
  ∧ (listPopulated p.essayPrompts = true →
      listPopulated (mergeProfile p o).essayPrompts = true)
  ∧ (listPopulated p.extracurriculars = true →
      listPopulated (mergeProfile p o).extracurriculars = true)
  ∧ (listPopulated p.classes = true → listPopulated (mergeProfile p o).classes = true)
  ∧ (listPopulated p.hobbies = true → listPopulated (mergeProfile p o).hobbies = true)
  ∧ (listPopulated p.awards = true → listPopulated (mergeProfile p o).awards = true)
  ∧ ((mergeProfile p o).colleges.getD [] = p.colleges.getD [] ++ o.colleges.getD []
      ∧ (mergeProfile p o).essayPrompts.getD []
          = p.essayPrompts.getD [] ++ o.essayPrompts.getD []
      ∧ (mergeProfile p o).extracurriculars.getD []
          = p.extracurriculars.getD [] ++ o.extracurriculars.getD []
      ∧ (mergeProfile p o).classes.getD [] = p.classes.getD [] ++ o.classes.getD []
      ∧ (mergeProfile p o).hobbies.getD [] = p.hobbies.getD [] ++ o.hobbies.getD []
      ∧ (mergeProfile p o).awards.getD [] = p.awards.getD [] ++ o.awards.getD [])
  ∧ ((mergeProfile p o).major = p.major
      ∨ ∃ s, o.major = some s ∧ s ≠ "" ∧ (mergeProfile p o).major = some s) := by
  refine ⟨?_,
    strPopulated_mergeMajor p.major o.major,
    listPopulated_mergeList p.colleges o.colleges,
    listPopulated_mergeList p.essayPrompts o.essayPrompts,
    listPopulated_mergeList p.extracurriculars o.extracurriculars,
    listPopulated_mergeList p.classes o.classes,
    listPopulated_mergeList p.hobbies o.hobbies,
    listPopulated_mergeList p.awards o.awards,
    ⟨mergeList_getD p.colleges o.colleges,
     mergeList_getD p.essayPrompts o.essayPrompts,
     mergeList_getD p.extracurriculars o.extracurriculars,
     mergeList_getD p.classes o.classes,
     mergeList_getD p.hobbies o.hobbies,
     mergeList_getD p.awards o.awards⟩,
    mergeMajor_cases p.major o.major⟩
  rw [hinv]
  have h1 : populatedCount p ≤ populatedCount (mergeProfile p o) :=
    populatedCount_le_merge p o
  have h2 : (mergeAndRescore p o).completeness
      = roundHalfUp (populatedCount (mergeProfile p o) * 100) 7 := rfl
  rw [h2, calculateCompleteness]
  exact roundHalfUp_le_roundHalfUp 7 (Nat.mul_le_mul_right 100 h1)

/-- Witness for C4: a profile with a synced completeness, merged with the
classifier output of one concrete message, does not lose completeness. -/
theorem merge_monotone_witness :
    initialProfile.completeness
      ≤ (mergeAndRescore initialProfile (analyzeUserInput "i enjoy chess club")).completeness :=
  (merge_monotone initialProfile (analyzeUserInput "i enjoy chess club") (by decide)).1

/-- A boolean-guarded optional value is the guarded value or absent. -/
theorem boolGuardedSome_cases {α : Type} (b : Bool) (x : α) :
    (if b then some x else none) = some x ∨ (if b then some x else none) = none := by
  cases b <;> simp

/-- A boolean-guarded optional value is present (with its value) iff the
guard holds. -/
theorem boolGuardedSome_eq_iff {α : Type} (b : Bool) (x : α) :
    ((if b then some x else none) = some x) ↔ b = true := by
  cases b <;> simp

/-- C3. The classifier's output contains a field iff the lowercased text
contains one of that field's keywords, and the fragment stored for a triggered
field is always the entire original message text (so one message can populate
several fields at once). -/
theorem classifier_characterization (text : String) :
    ((analyzeUserInput text).major = some text
        ↔ ∃ kw ∈ majorKeywords, ContainsStr (toLowerCase text) kw)
  ∧ ((analyzeUserInput text).major = some text ∨ (analyzeUserInput text).major = none)
  ∧ ((analyzeUserInput text).colleges = some [text]
        ↔ ∃ kw ∈ collegeKeywords, ContainsStr (toLowerCase text) kw)
  ∧ ((analyzeUserInput text).colleges = some [text]
        ∨ (analyzeUserInput text).colleges = none)
  ∧ ((analyzeUserInput text).essayPrompts = some [text]
        ↔ ∃ kw ∈ essayKeywords, ContainsStr (toLowerCase text) kw)
  ∧ ((analyzeUserInput text).essayPrompts = some [text]
        ∨ (analyzeUserInput text).essayPrompts = none)
  ∧ ((analyzeUserInput text).extracurriculars = some [text]
        ↔ ∃ kw ∈ extracurricularKeywords, ContainsStr (toLowerCase text) kw)
  ∧ ((analyzeUserInput text).extracurriculars = some [text]
        ∨ (analyzeUserInput text).extracurriculars = none)
  ∧ ((analyzeUserInput text).classes = some [text]
        ↔ ∃ kw ∈ classKeywords, ContainsStr (toLowerCase text) kw)
  ∧ ((analyzeUserInput text).classes = some [text]
        ∨ (analyzeUserInput text).classes = none)
  ∧ ((analyzeUserInput text).hobbies = some [text]
        ↔ ∃ kw ∈ hobbyKeywords, ContainsStr (toLowerCase text) kw)
  ∧ ((analyzeUserInput text).hobbies = some [text]
        ∨ (analyzeUserInput text).hobbies = none)
  ∧ ((analyzeUserInput text).awards = some [text]
        ↔ ∃ kw ∈ awardKeywords, ContainsStr (toLowerCase text) kw)
  ∧ ((analyzeUserInput text).awards = some [text]
        ∨ (analyzeUserInput text).awards = none) := by
  refine ⟨?_, ?_, ?_, ?_, ?_, ?_, ?_, ?_, ?_, ?_, ?_, ?_, ?_, ?_⟩ <;>
    first
      | (rw [← hasAnyKeyword_iff]; exact boolGuardedSome_eq_iff _ _)
      | exact boolGuardedSome_cases _ _

/-- Bridge from the executable no-keyword check to the propositional
hypothesis of the no-keyword theorem. -/
theorem noKeyword_of_all (text : String)
    (hb : (allKeywords.all fun kw => ! strIncludes (toLowerCase text) kw) = true) :
    ∀ kw ∈ allKeywords, ¬ ContainsStr (toLowerCase text) kw := by
  intro kw hkw hc
  have h1 := List.all_eq_true.mp hb kw hkw
  rw [Bool.not_eq_eq_eq_not, Bool.not_true] at h1
  rw [← strIncludes_iff] at hc
  rw [h1] at hc
  cases hc

/-- C5. A message whose lowercased text contains no keyword of any field's
trigger set classifies to no fields, merging that empty output changes no
field, and — when the stored completeness is in sync, as it is for every
reachable profile — the whole profile update is the identity. -/
theorem noKeyword_identity (p : UserProfile) (text : String)
    (h : ∀ kw ∈ allKeywords, ¬ ContainsStr (toLowerCase text) kw) :
    analyzeUserInput text = emptyClassifierOutput
  ∧ mergeProfile p (analyzeUserInput text) = p
  ∧ (p.completeness = calculateCompleteness p → updateProfileWithMessage p text = p) := by
  have hf : ∀ kws : List String, (∀ kw ∈ kws, kw ∈ allKeywords) →
      hasAnyKeyword (toLowerCase text) kws = false := by
    intro kws hsub
    exact hasAnyKeyword_eq_false _ _ fun kw hkw => h kw (hsub kw hkw)
  have hmaj : hasAnyKeyword (toLowerCase text) majorKeywords = false :=
    hf _ (by intro kw hkw; simp [allKeywords]; tauto)
  have hcol : hasAnyKeyword (toLowerCase text) collegeKeywords = false :=
    hf _ (by intro kw hkw; simp [allKeywords]; tauto)
  have hess : hasAnyKeyword (toLowerCase text) essayKeywords = false :=
    hf _ (by intro kw hkw; simp [allKeywords]; tauto)
  have hext : hasAnyKeyword (toLowerCase text) extracurricularKeywords = false :=
    hf _ (by intro kw hkw; simp [allKeywords]; tauto)
  have hcls : hasAnyKeyword (toLowerCase text) classKeywords = false :=
    hf _ (by intro kw hkw; simp [allKeywords]; tauto)
  have hhob : hasAnyKeyword (toLowerCase text) hobbyKeywords = false :=
    hf _ (by intro kw hkw; simp [allKeywords]; tauto)
  have hawd : hasAnyKeyword (toLowerCase text) awardKeywords = false :=
    hf _ (by intro kw hkw; simp [allKeywords]; tauto)
  have hempty : analyzeUserInput text = emptyClassifierOutput := by
    simp [analyzeUserInput, emptyClassifierOutput, hmaj, hcol, hess, hext, hcls, hhob, hawd]
  have hmerge : mergeProfile p (analyzeUserInput text) = p := by
    rw [hempty]
    rfl
  refine ⟨hempty, hmerge, fun hinv => ?_⟩
  show mergeAndRescore p (analyzeUserInput text) = p
  rw [mergeAndRescore]
  simp only [hmerge]
  rw [← hinv]

/-- Witness for C5: the whitespace-only message " " hits no keyword and leaves
the initial profile unchanged. -/
theorem noKeyword_identity_witness :
    updateProfileWithMessage initialProfile " " = initialProfile :=
  (noKeyword_identity initialProfile " "
    (noKeyword_of_all " " (by decide))).2.2 (by decide)

/-- C6 counterexample. On the end-to-end scenario message the code does NOT
populate the colleges field and does NOT reach completeness 29: the message
contains no college keyword (college, university, school), so only the major
field populates and completeness becomes 14. -/
theorem scenario_counterexample :
    ¬ ((updateProfileWithMessage initialProfile c6msg).colleges ≠ none
       ∧ (updateProfileWithMessage initialProfile c6msg).completeness = 29) := by
  decide

/-- C6 amended. Starting from the empty profile, the scenario message
populates exactly the major field (with the whole message as fragment),
raises completeness from 0 to 14 (1 of 7 fields), and the selected stage is
collection. -/
theorem scenario_amended :
    (updateProfileWithMessage initialProfile c6msg).major = some c6msg
  ∧ (updateProfileWithMessage initialProfile c6msg).colleges = none
  ∧ (updateProfileWithMessage initialProfile c6msg).essayPrompts = none
  ∧ (updateProfileWithMessage initialProfile c6msg).extracurriculars = none
  ∧ (updateProfileWithMessage initialProfile c6msg).classes = none
  ∧ (updateProfileWithMessage initialProfile c6msg).hobbies = none
  ∧ (updateProfileWithMessage initialProfile c6msg).awards = none
  ∧ initialProfile.completeness = 0
  ∧ (updateProfileWithMessage initialProfile c6msg).completeness = 14
  ∧ getConversationStage (updateProfileWithMessage initialProfile c6msg)
      = Stage.collection := by
  decide

/-! ## Helper lemmas: string concatenation folds -/

theorem foldl_append_eq (l : List String) (acc : String) :
    l.foldl (fun r s => r ++ s) acc = acc ++ l.foldl (fun r s => r ++ s) "" := by
  induction l generalizing acc with
  | nil => simp [List.foldl, String.append_empty]
  | cons c cs ih =>
    simp only [List.foldl]
    rw [ih (acc ++ c), ih ("" ++ c), String.empty_append, String.append_assoc]

theorem join_cons (c : String) (cs : List String) :
    String.join (c :: cs) = c ++ String.join cs := by
  show (c :: cs).foldl (fun r s => r ++ s) "" = c ++ cs.foldl (fun r s => r ++ s) ""
  simp only [List.foldl]
  rw [foldl_append_eq cs ("" ++ c), String.empty_append]

theorem publishedContents_getD (acc : String) (chunks : List String) :
    ∀ n, n < chunks.length →
      (publishedContents acc chunks).getD n ""
        = acc ++ String.join (chunks.take (n + 1)) := by
  induction chunks generalizing acc with
  | nil => intro n hn; simp at hn
  | cons c cs ih =>
    intro n hn
    cases n with
    | zero =>
      show ((acc ++ c) :: publishedContents (acc ++ c) cs).getD 0 ""
        = acc ++ String.join ((c :: cs).take 1)
      rw [List.getD_cons_zero, List.take_succ_cons, List.take_zero, join_cons]
      rw [show String.join [] = "" from rfl, String.append_empty]
    | succ m =>
      have hm : m < cs.length := by simpa using hn
      show ((acc ++ c) :: publishedContents (acc ++ c) cs).getD (m + 1) ""
        = acc ++ String.join ((c :: cs).take (m + 2))
      rw [List.getD_cons_succ, ih (acc ++ c) m hm, List.take_succ_cons, join_cons,
        String.append_assoc]

theorem publishedContents_chain (acc : String) (chunks : List String) :
    List.Chain' (fun a b => ∃ s, b = a ++ s) (acc :: publishedContents acc chunks) := by
  induction chunks generalizing acc with
  | nil => exact List.chain'_singleton acc
  | cons c cs ih => exact List.chain'_cons.mpr ⟨⟨c, rfl⟩, ih (acc ++ c)⟩

/-- C7. The assistant message starts with empty content, and for every finite
chunk sequence the content published after the n-th chunk callback is the
concatenation of chunks 1..n in arrival order; successive published contents
only ever grow by appending (no rollback, no reordering, no dropped chunk). -/
theorem streaming_monotone (chunks : List String) :
    (∀ n, n < chunks.length →
        (publishedContents "" chunks).getD n "" = String.join (chunks.take (n + 1)))
  ∧ List.Chain' (fun a b => ∃ s, b = a ++ s) ("" :: publishedContents "" chunks) := by
  refine ⟨fun n hn => ?_, publishedContents_chain "" chunks⟩
  rw [publishedContents_getD "" chunks n hn, String.empty_append]

/-- Witness for C7: on the spec's three-chunk stream the third published
content is the full concatenation. -/
theorem streaming_monotone_witness :
    (publishedContents "" ["Hel", "lo ", "World"]).getD 2 "" = "Hello World" := by
  rw [(streaming_monotone ["Hel", "lo ", "World"]).1 2 (by decide)]
  decide

theorem buildAttachmentContext_foldl (files : List Attachment) (acc : String) :
    files.foldl (fun ctx a => ctx ++ attachmentBlock a) acc
      = acc ++ buildAttachmentContext files := by
  induction files generalizing acc with
  | nil => simp [buildAttachmentContext, List.foldl, String.append_empty]
  | cons f fs ih =>
    show fs.foldl _ (acc ++ attachmentBlock f) = _
    rw [ih (acc ++ attachmentBlock f)]
    have h2 : buildAttachmentContext (f :: fs)
        = ("" ++ attachmentBlock f) ++ buildAttachmentContext fs := by
      show fs.foldl _ ("" ++ attachmentBlock f) = _
      rw [ih ("" ++ attachmentBlock f)]
    rw [h2, String.empty_append, String.append_assoc]

theorem buildAttachmentContext_cons (f : Attachment) (fs : List Attachment) :
    buildAttachmentContext (f :: fs)
      = attachmentBlock f ++ buildAttachmentContext fs := by
  show fs.foldl (fun ctx a => ctx ++ attachmentBlock a) ("" ++ attachmentBlock f) = _
  rw [buildAttachmentContext_foldl fs, String.empty_append]

theorem buildAttachmentContext_append (xs ys : List Attachment) :
    buildAttachmentContext (xs ++ ys)
      = buildAttachmentContext xs ++ buildAttachmentContext ys := by
  show (xs ++ ys).foldl (fun ctx a => ctx ++ attachmentBlock a) "" = _
  rw [List.foldl_append]
  exact buildAttachmentContext_foldl ys _

/-- C8. Every attachment contributes exactly one block to the assembled
context, in original submission order: a labeled content block when its
extraction succeeds, a labeled could-not-process placeholder when it fails;
a failing attachment never suppresses the blocks of the other attachments. -/
theorem attachment_isolation (files : List Attachment) :
    buildAttachmentContext files = String.join (files.map attachmentBlock)
  ∧ (∀ xs ys a, files = xs ++ a :: ys →
      buildAttachmentContext files
        = buildAttachmentContext xs ++ attachmentBlock a ++ buildAttachmentContext ys)
  ∧ (∀ a ∈ files, ∀ t, a.extractResult = some t →
      attachmentBlock a = "\n\nContent from " ++ a.name ++ ":\n" ++ t)
  ∧ (∀ a ∈ files, a.extractResult = none →
      attachmentBlock a = "\n\nNote: Could not process " ++ a.name) := by
  refine ⟨?_, ?_, ?_, ?_⟩
  · induction files with
    | nil => rfl
    | cons f fs ih => rw [buildAttachmentContext_cons, List.map_cons, join_cons, ih]
  · rintro xs ys a rfl
    rw [buildAttachmentContext_append, buildAttachmentContext_cons,
      ← String.append_assoc]
  · intro a _ t ht
    simp [attachmentBlock, ht]
  · intro a _ ht
    simp [attachmentBlock, ht]

/-- Witness for C8: three attachments where exactly the middle extraction
fails produce two successful blocks and one placeholder, in submission
order. -/
theorem attachment_isolation_witness :
    buildAttachmentContext
        [⟨"transcript.pdf", some "GPA 4.0"⟩, ⟨"essay.doc", none⟩,
         ⟨"awards.txt", some "Science Fair"⟩]
      = buildAttachmentContext [⟨"transcript.pdf", some "GPA 4.0"⟩]
          ++ attachmentBlock ⟨"essay.doc", none⟩
          ++ buildAttachmentContext [⟨"awards.txt", some "Science Fair"⟩]
  ∧ attachmentBlock (⟨"essay.doc", none⟩ : Attachment)
      = "\n\nNote: Could not process essay.doc" := by
  refine ⟨(attachment_isolation _).2.1 [⟨"transcript.pdf", some "GPA 4.0"⟩]
    [⟨"awards.txt", some "Science Fair"⟩] ⟨"essay.doc", none⟩ rfl, ?_⟩
  exact (attachment_isolation [⟨"essay.doc", none⟩]).2.2.2
    ⟨"essay.doc", none⟩ (by simp) rfl

/-! ## Helper lemmas: containment in the assembled prompts -/

theorem profileContext_contains (p : UserProfile) (st : Stage) :
    ContainsStr (profileContext p st) ("- Major: " ++ renderMajor p.major)
  ∧ ContainsStr (profileContext p st)
      ("- Target Colleges: " ++ renderJoin ", " p.colleges)
  ∧ ContainsStr (profileContext p st)
      ("- Essay Prompts: " ++ renderJoin "; " p.essayPrompts)
  ∧ ContainsStr (profileContext p st)
      ("- Extracurriculars: " ++ renderJoin ", " p.extracurriculars)
  ∧ ContainsStr (profileContext p st) ("- Classes: " ++ renderJoin ", " p.classes)
  ∧ ContainsStr (profileContext p st) ("- Hobbies: " ++ renderJoin ", " p.hobbies)
  ∧ ContainsStr (profileContext p st) ("- Awards: " ++ renderJoin ", " p.awards)
  ∧ ContainsStr (profileContext p st)
      ("- Profile Completeness: " ++ toString p.completeness ++ "%")
  ∧ ContainsStr (profileContext p st) ("- Conversation Stage: " ++ stageString st) := by
  refine ⟨?_, ?_, ?_, ?_, ?_, ?_, ?_, ?_, ?_⟩ <;>
    (unfold profileContext
     repeat first
       | exact ContainsStr.apL _ (containsStr_refl _)
       | apply ContainsStr.apR)

theorem collectionPrompt_contains {pc x : String} (input ctx : String)
    (h : ContainsStr pc x) : ContainsStr (collectionPrompt pc input ctx) x := by
  unfold collectionPrompt
  repeat first
    | exact ContainsStr.apL _ h
    | apply ContainsStr.apR

theorem generationPrompt_contains {pc x : String} (ct input ctx : String)
    (h : ContainsStr pc x) : ContainsStr (generationPrompt pc ct input ctx) x := by
  unfold generationPrompt
  repeat first
    | exact ContainsStr.apL _ h
    | apply ContainsStr.apR

theorem refinementPrompt_contains {pc x : String} (input ctx : String)
    (h : ContainsStr pc x) : ContainsStr (refinementPrompt pc input ctx) x := by
  unfold refinementPrompt
  repeat first
    | exact ContainsStr.apL _ h
    | apply ContainsStr.apR

theorem collectionPrompt_tail (pc input ctx : String) :
    ContainsStr (collectionPrompt pc input ctx) (input ++ ctx) := by
  unfold collectionPrompt
  exact containsStr_last2 _ _ _

theorem generationPrompt_tail (pc ct input ctx : String) :
    ContainsStr (generationPrompt pc ct input ctx) (input ++ ctx) := by
  unfold generationPrompt
  exact containsStr_last2 _ _ _

theorem refinementPrompt_tail (pc input ctx : String) :
    ContainsStr (refinementPrompt pc input ctx) (input ++ ctx) := by
  unfold refinementPrompt
  exact containsStr_last2 _ _ _

theorem generationPrompt_headers (pc ct input ctx : String) :
    ∀ x ∈ generationSectionHeaders, ContainsStr (generationPrompt pc ct input ctx) x := by
  intro x hx
  simp only [generationSectionHeaders, List.mem_cons, List.mem_singleton,
    List.not_mem_nil, or_false] at hx
  unfold generationPrompt
  rcases hx with rfl | rfl | rfl | rfl | rfl | rfl <;>
    (repeat first
      | exact ContainsStr.apL _ (containsStr_refl _)
      | apply ContainsStr.apR)

/-- C9. For every profile, user message and attachment context, the assembled
system prompt contains the rendered line of each of the seven profile fields
(an absent field rendering as the literal fallback "Not specified"), the
completeness percentage, the selected stage, and the raw user message text
with the attachment context appended; when the selected stage is generation
it additionally contains each of the six named section instructions. -/
theorem prompt_payload (p : UserProfile) (input attachmentContext : String) :
    ContainsStr (systemPrompt p input attachmentContext)
      ("- Major: " ++ renderMajor p.major)
  ∧ ContainsStr (systemPrompt p input attachmentContext)
      ("- Target Colleges: " ++ renderJoin ", " p.colleges)
  ∧ ContainsStr (systemPrompt p input attachmentContext)
      ("- Essay Prompts: " ++ renderJoin "; " p.essayPrompts)
  ∧ ContainsStr (systemPrompt p input attachmentContext)
      ("- Extracurriculars: " ++ renderJoin ", " p.extracurriculars)
  ∧ ContainsStr (systemPrompt p input attachmentContext)
      ("- Classes: " ++ renderJoin ", " p.classes)
  ∧ ContainsStr (systemPrompt p input attachmentContext)
      ("- Hobbies: " ++ renderJoin ", " p.hobbies)
  ∧ ContainsStr (systemPrompt p input attachmentContext)
      ("- Awards: " ++ renderJoin ", " p.awards)
  ∧ ContainsStr (systemPrompt p input attachmentContext)
      ("- Profile Completeness: " ++ toString p.completeness ++ "%")
  ∧ ContainsStr (systemPrompt p input attachmentContext)
      ("- Conversation Stage: " ++ stageString (getConversationStage p))
  ∧ ContainsStr (systemPrompt p input attachmentContext) (input ++ attachmentContext)
  ∧ renderMajor none = "Not specified"
  ∧ (∀ sep, renderJoin sep none = "Not specified")
  ∧ (getConversationStage p = Stage.generation →
      ∀ x ∈ generationSectionHeaders,
        ContainsStr (systemPrompt p input attachmentContext) x) := by
  rcases hst : getConversationStage p with _ | _ | _ <;>
    simp only [systemPrompt, hst] <;>
    [(have hpc := profileContext_contains p Stage.collection);
     (have hpc := profileContext_contains p Stage.generation);
     (have hpc := profileContext_contains p Stage.refinement)]
  · exact ⟨collectionPrompt_contains _ _ hpc.1,
      collectionPrompt_contains _ _ hpc.2.1,
      collectionPrompt_contains _ _ hpc.2.2.1,
      collectionPrompt_contains _ _ hpc.2.2.2.1,
      collectionPrompt_contains _ _ hpc.2.2.2.2.1,
      collectionPrompt_contains _ _ hpc.2.2.2.2.2.1,
      collectionPrompt_contains _ _ hpc.2.2.2.2.2.2.1,
      collectionPrompt_contains _ _ hpc.2.2.2.2.2.2.2.1,
      collectionPrompt_contains _ _ hpc.2.2.2.2.2.2.2.2,
      collectionPrompt_tail _ _ _,
      rfl, fun _ => rfl,
      fun hgen => Stage.noConfusion hgen⟩
  · exact ⟨generationPrompt_contains _ _ _ hpc.1,
      generationPrompt_contains _ _ _ hpc.2.1,
      generationPrompt_contains _ _ _ hpc.2.2.1,
      generationPrompt_contains _ _ _ hpc.2.2.2.1,
      generationPrompt_contains _ _ _ hpc.2.2.2.2.1,
      generationPrompt_contains _ _ _ hpc.2.2.2.2.2.1,
      generationPrompt_contains _ _ _ hpc.2.2.2.2.2.2.1,
      generationPrompt_contains _ _ _ hpc.2.2.2.2.2.2.2.1,
      generationPrompt_contains _ _ _ hpc.2.2.2.2.2.2.2.2,
      generationPrompt_tail _ _ _ _,
      rfl, fun _ => rfl,
      fun _ => generationPrompt_headers _ _ _ _⟩
  · exact ⟨refinementPrompt_contains _ _ hpc.1,
      refinementPrompt_contains _ _ hpc.2.1,
      refinementPrompt_contains _ _ hpc.2.2.1,
      refinementPrompt_contains _ _ hpc.2.2.2.1,
      refinementPrompt_contains _ _ hpc.2.2.2.2.1,
      refinementPrompt_contains _ _ hpc.2.2.2.2.2.1,
      refinementPrompt_contains _ _ hpc.2.2.2.2.2.2.1,
      refinementPrompt_contains _ _ hpc.2.2.2.2.2.2.2.1,
      refinementPrompt_contains _ _ hpc.2.2.2.2.2.2.2.2,
      refinementPrompt_tail _ _ _,
      rfl, fun _ => rfl,
      fun hgen => Stage.noConfusion hgen⟩

/-- Witness for C9: a profile at completeness 60 selects the generation stage
and its assembled prompt contains the narrative-themes section header. -/
theorem prompt_payload_witness :
    ContainsStr (systemPrompt { completeness := 60 } "hi" "")
      "## 🎯 NARRATIVE THEMES" :=
  (prompt_payload ({ completeness := 60 } : UserProfile) "hi" "").2.2.2.2.2.2.2.2.2.2.2.2
    (by decide) "## 🎯 NARRATIVE THEMES" (by decide)

/-- C10. The profile, completeness and stage a turn produces depend only on
the typed message text: two turns with the same input but arbitrary different
attachments and extraction outcomes yield the identical profile (hence the
identical completeness) and the identical stage, and the profile always
equals the attachment-free update of the typed input — extraction results
reach only the prompt. -/
theorem profile_ignores_attachments (p : UserProfile) (input : String)
    (files1 files2 : List Attachment) :
    (processTurn p input files1).profile = (processTurn p input files2).profile
  ∧ (processTurn p input files1).profile.completeness
      = (processTurn p input files2).profile.completeness
  ∧ (processTurn p input files1).stage = (processTurn p input files2).stage
  ∧ (processTurn p input files1).profile = updateProfileWithMessage p input :=
  ⟨rfl, rfl, rfl, rfl⟩
